import Mathlib

/-!
Verification of the ASA24 analyzer core (streamlit_app.py / src/asa24_analyzer.py).

The program manipulates pandas DataFrames; we shallowly embed the tables as
lists of records with rational number measurements.  Optional columns (those
the HEI engine probes with a column-presence check, plus F_JUICE and
V_LEGUMES whose absence makes the bracket access raise KeyError) are modelled
as Option fields of a row; a computation that would raise KeyError is
modelled as returning none.  Column presence is a per-table property of a
pandas frame; since every row of a CSV-loaded table shares the schema,
modelling presence per row is equivalent for the properties below.
-/

namespace ASA24

/-- Model of pandas Series.clip(lo, hi): clamp a value into the interval. -/
def clip (x lo hi : ℚ) : ℚ := max lo (min x hi)

/-- One row of the Totals table.  Columns the source accesses
unconditionally are plain rationals; columns whose presence the source
probes (MUFA, PUFA, SFA, SFAT, M161, M181, P183, S040..S180) and the two
columns whose absence raises (F_JUICE, V_LEGUMES) are Option valued. -/
structure TotalsRow where
  userName : String
  recallNo : Nat
  kcal : ℚ
  f_total : ℚ
  v_total : ℚ
  v_drkgr : ℚ
  g_whole : ℚ
  g_refined : ℚ
  d_total : ℚ
  pf_total : ℚ
  pf_seafd_hi : ℚ
  pf_nutsds : ℚ
  sodi : ℚ
  add_sugars : ℚ
  f_juice : Option ℚ
  v_legumes : Option ℚ
  mufa : Option ℚ
  pufa : Option ℚ
  sfa : Option ℚ
  sfat : Option ℚ
  m161 : Option ℚ
  m181 : Option ℚ
  p183 : Option ℚ
  s040 : Option ℚ
  s060 : Option ℚ
  s080 : Option ℚ
  s100 : Option ℚ
  s120 : Option ℚ
  s140 : Option ℚ
  s160 : Option ℚ
  s180 : Option ℚ
  deriving DecidableEq

/-- Component 9 of calculate_hei_2015 (streamlit_app.py lines 245-261):
uses (MUFA+PUFA)/SFA when those columns exist, else derives the ratio from
M161+M181+P183 over the sum S040..S180 when all eleven exist, else assigns
the default middle score 5. -/
def fattyAcidsScore (r : TotalsRow) : ℚ :=
  match r.mufa, r.pufa, r.sfa with
  | some m, some p, some s =>
      clip (((m + p) / s - 1.2) / (2.5 - 1.2) * 10) 0 10
  | _, _, _ =>
      match r.m161, r.m181, r.p183, r.s040, r.s060, r.s080, r.s100,
            r.s120, r.s140, r.s160, r.s180 with
      | some a, some b, some c, some d, some e, some f, some g, some h,
        some i, some j, some k =>
          clip (((a + b + c) / (d + e + f + g + h + i + j + k) - 1.2)
                 / (2.5 - 1.2) * 10) 0 10
      | _, _, _, _, _, _, _, _, _, _, _ => 5

/-- Saturated fat as a percentage of energy (streamlit_app.py lines
275-289): use SFA if that column exists, else the SFAT alias, else the sum
of the eight individual saturated fatty acid columns.  In the remaining
case the source assigns the plain Python int 12 to sat_fat_perc, so line
289 evaluates ((16 - 12) / (16 - 8) * 10).clip(0, 10) on a built-in
float, which has no clip method: the call dies with AttributeError and no
score is produced.  That crash is modelled as none. -/
def satFatPerc (r : TotalsRow) : Option ℚ :=
  match r.sfa with
  | some x => some (x * 9 * 100 / r.kcal)
  | none =>
    match r.sfat with
    | some y => some (y * 9 * 100 / r.kcal)
    | none =>
      match r.s040, r.s060, r.s080, r.s100, r.s120, r.s140, r.s160, r.s180 with
      | some a, some b, some c, some d, some e, some f, some g, some h =>
          some ((a + b + c + d + e + f + g + h) * 9 * 100 / r.kcal)
      | _, _, _, _, _, _, _, _ => none

/-- True when all eight S040..S180 columns are present. -/
def sColsPresent (r : TotalsRow) : Bool :=
  r.s040.isSome && r.s060.isSome && r.s080.isSome && r.s100.isSome &&
  r.s120.isSome && r.s140.isSome && r.s160.isSome && r.s180.isSome

/-- True when every Option valued (presence-probed) column of the Totals
row is present. -/
def allOptionalPresent (r : TotalsRow) : Bool :=
  r.f_juice.isSome && r.v_legumes.isSome && r.mufa.isSome && r.pufa.isSome &&
  r.sfa.isSome && r.sfat.isSome && r.m161.isSome && r.m181.isSome &&
  r.p183.isSome && sColsPresent r

/-- One output row of calculate_hei_2015: the 13 component scores plus
their sum, keyed by subject and visit label. -/
structure ScoreRow where
  userName : String
  visit : String
  totalFruits : ℚ
  wholeFruits : ℚ
  totalVegetables : ℚ
  greensAndBeans : ℚ
  wholeGrains : ℚ
  dairy : ℚ
  totalProteinFoods : ℚ
  seafoodPlantProteins : ℚ
  fattyAcids : ℚ
  refinedGrains : ℚ
  sodium : ℚ
  addedSugars : ℚ
  saturatedFats : ℚ
  totalScore : ℚ
  deriving DecidableEq

/-- The scores computed for one Totals row once the F_JUICE value fj and
the V_LEGUMES value vl have been read successfully and the saturated-fat
percentage pct has been obtained from a present column (streamlit_app.py
lines 205-292).  Each formula is the source formula with energy factor
1000/KCAL; the total is the sum of the 13 components. -/
def heiScoresOf (r : TotalsRow) (fj vl pct : ℚ) : ScoreRow :=
  let ef := 1000 / r.kcal
  let tf := clip (r.f_total * ef / 0.8 * 5) 0 5
  let wf := clip ((r.f_total - fj) * ef / 0.4 * 5) 0 5
  let tv := clip (r.v_total * ef / 1.1 * 5) 0 5
  let gb := clip ((r.v_drkgr + vl) * ef / 0.2 * 5) 0 5
  let wg := clip (r.g_whole * ef / 1.5 * 10) 0 10
  let da := clip (r.d_total * ef / 1.3 * 10) 0 10
  let pf := clip (r.pf_total * ef / 2.5 * 5) 0 5
  let sp := clip ((r.pf_seafd_hi + r.pf_nutsds) * ef / 0.8 * 5) 0 5
  let fa := fattyAcidsScore r
  let rg := clip ((4.3 - r.g_refined * ef) / (4.3 - 1.8) * 10) 0 10
  let na := clip ((2.0 - r.sodi * ef / 1000) / (2.0 - 1.1) * 10) 0 10
  let ad := clip ((26 - r.add_sugars * 4 * 100 / r.kcal) / (26 - 6.5) * 10) 0 10
  let sf := clip ((16 - pct) / (16 - 8) * 10) 0 10
  { userName := r.userName
    visit := "Visit " ++ toString r.recallNo
    totalFruits := tf
    wholeFruits := wf
    totalVegetables := tv
    greensAndBeans := gb
    wholeGrains := wg
    dairy := da
    totalProteinFoods := pf
    seafoodPlantProteins := sp
    fattyAcids := fa
    refinedGrains := rg
    sodium := na
    addedSugars := ad
    saturatedFats := sf
    totalScore := tf + wf + tv + gb + wg + da + pf + sp + fa + rg + na + ad + sf }

/-- Scoring of a single Totals row.  Two failure modes end the call with
an uncaught exception, modelled as none: the source reads F_TOTAL -
F_JUICE and V_DRKGR + V_LEGUMES with unchecked bracket access, so a
missing F_JUICE or V_LEGUMES column raises KeyError (lines 218 and 226,
reached first); and when SFA, SFAT and the S040..S180 columns are all
absent the saturated-fat step raises AttributeError (line 289, see
satFatPerc). -/
def hei2015Row (r : TotalsRow) : Option ScoreRow :=
  match r.f_juice, r.v_legumes with
  | some fj, some vl =>
    match satFatPerc r with
    | some pct => some (heiScoresOf r fj vl pct)
    | none => none
  | _, _ => none

/-- One row of the Items table. -/
structure ItemRow where
  userName : String
  recallNo : Nat
  occName : String
  foodNum : ℚ
  foodDesc : String
  foodAmt : ℚ
  kcal : ℚ
  prot : ℚ
  tfat : ℚ
  carb : ℚ
  deriving DecidableEq

/-- The stored Items DataFrame: its rows plus the optional Meal column.
A freshly loaded Items CSV has no Meal column (mealCol = none); the
in-place assignment in get_meal_summary can add one to the stored frame. -/
structure ItemsTable where
  rows : List ItemRow
  mealCol : Option (List (Option String))
  deriving DecidableEq

/-- One row of the INS (supplements) table. -/
structure InsRow where
  userName : String
  recallNo : Nat
  intakeStart : String
  supplDescr : String
  supplAmount : ℚ
  supplUnit : String
  deriving DecidableEq

/-- The in-memory store self.data: the three table categories the
analyzer consumes, each present or absent. -/
structure Store where
  totals : Option (List TotalsRow)
  items : Option ItemsTable
  ins : Option (List InsRow)
  deriving DecidableEq

/-- The subject filter shared by every projector (streamlit_app.py lines
27-30 and the identical blocks in the other methods): a falsy allowlist
(Python None or the empty list) leaves the table unchanged, otherwise keep
the rows whose UserName is a member. -/
def filterSubjects (user : α → String) (subjects : Option (List String))
    (rows : List α) : List α :=
  match subjects with
  | none => rows
  | some [] => rows
  | some l => rows.filter fun a => decide (user a ∈ l)

/-- The fixed meal-occasion code lookup (streamlit_app.py lines 126-135);
pandas Series.map leaves codes outside the dictionary unmapped (NaN),
modelled as none. -/
def mealNames (s : String) : Option String :=
  if s = "1" then some "Breakfast"
  else if s = "2" then some "Morning Snack"
  else if s = "3" then some "Lunch"
  else if s = "4" then some "Afternoon Snack"
  else if s = "5" then some "Dinner"
  else if s = "6" then some "Evening Snack"
  else if s = "7" then some "Late Evening Snack"
  else if s = "8" then some "Other Time"
  else none

/-- Grouping key of an Items row in get_meal_summary: (UserName,
RecallNo, Meal); rows whose occasion code is unmapped have no key and are
dropped by pandas groupby. -/
def mealKey (r : ItemRow) : Option (String × Nat × String) :=
  (mealNames r.occName).map fun m => (r.userName, r.recallNo, m)

/-- Rounding to one decimal place, as DataFrame.round(1) does (pandas
rounds ties to even; no property below depends on the tie rule). -/
def round1 (q : ℚ) : ℚ := ((round (q * 10) : ℤ) : ℚ) / 10

/-- One output row of get_meal_summary. -/
structure MealRow where
  userName : String
  recallNo : Nat
  meal : String
  visit : String
  numItems : Nat
  calories : ℚ
  protein : ℚ
  fat : ℚ
  carbs : ℚ
  deriving DecidableEq

/-- The aggregate row for one (UserName, RecallNo, Meal) group: count of
rows and the four nutrient sums rounded to one decimal place
(streamlit_app.py lines 138-148). -/
def mkMealRow (rows : List ItemRow) (k : String × Nat × String) : MealRow :=
  let grp := rows.filter fun r => decide (mealKey r = some k)
  { userName := k.1
    recallNo := k.2.1
    meal := k.2.2
    visit := "Visit " ++ toString k.2.1
    numItems := grp.length
    calories := round1 ((grp.map (·.kcal)).sum)
    protein := round1 ((grp.map (·.prot)).sum)
    fat := round1 ((grp.map (·.tfat)).sum)
    carbs := round1 ((grp.map (·.carb)).sum) }

/-- The grouped aggregation of get_meal_summary over a row list: one
output row per distinct grouping key.  Pandas lists group keys in sorted
order; we list them by dedup of occurrence, which no property below
distinguishes. -/
def mealSummaryRows (rows : List ItemRow) : List MealRow :=
  ((rows.filterMap mealKey).dedup).map (mkMealRow rows)

/-- Result of get_meal_summary (streamlit_app.py lines 119-150): empty
when the Items table is absent, else the grouped aggregation of the
filtered rows. -/
def get_meal_summary (s : Store) (subjects : Option (List String)) :
    List MealRow :=
  match s.items with
  | none => []
  | some tbl => mealSummaryRows (filterSubjects (·.userName) subjects tbl.rows)

/-- The store after a call to get_meal_summary.  The method assigns the
Meal column with an in-place update on the local df; when the allowlist is
falsy that df is the stored Items DataFrame itself (no .copy() is taken,
unlike the other projectors), so the stored frame gains a Meal column;
when the allowlist is truthy the boolean-mask selection produced a fresh
frame and the store is untouched. -/
def get_meal_summary_store (s : Store) (subjects : Option (List String)) :
    Store :=
  match s.items with
  | none => s
  | some tbl =>
    match subjects with
    | none =>
        { s with items := some { tbl with
            mealCol := some (tbl.rows.map fun r => mealNames r.occName) } }
    | some [] =>
        { s with items := some { tbl with
            mealCol := some (tbl.rows.map fun r => mealNames r.occName) } }
    | some _ => s

/-- Output row shape shared by the nutrient and food-group summaries:
the (UserName, Visit) key plus the selected columns of the source Totals
row (column selection and relabeling are schema level, modelled below by
renameCols over column name lists). -/
structure KeyedTotalsRow where
  userName : String
  visit : String
  src : TotalsRow
  deriving DecidableEq

/-- Result of get_nutrient_summary (streamlit_app.py lines 25-65): empty
when the Totals table is absent, else one keyed row per filtered source
row. -/
def get_nutrient_summary (s : Store) (subjects : Option (List String)) :
    List KeyedTotalsRow :=
  match s.totals with
  | none => []
  | some t => (filterSubjects (·.userName) subjects t).map fun r =>
      { userName := r.userName
        visit := "Visit " ++ toString r.recallNo
        src := r }

/-- Result of get_food_groups_summary (streamlit_app.py lines 67-103):
same shape as the nutrient summary with a different column mapping. -/
def get_food_groups_summary (s : Store) (subjects : Option (List String)) :
    List KeyedTotalsRow :=
  match s.totals with
  | none => []
  | some t => (filterSubjects (·.userName) subjects t).map fun r =>
      { userName := r.userName
        visit := "Visit " ++ toString r.recallNo
        src := r }

/-- Output row of get_supplement_summary. -/
structure KeyedInsRow where
  userName : String
  visit : String
  src : InsRow
  deriving DecidableEq

/-- Result of get_supplement_summary (streamlit_app.py lines 105-117):
empty when the INS table is absent. -/
def get_supplement_summary (s : Store) (subjects : Option (List String)) :
    List KeyedInsRow :=
  match s.ins with
  | none => []
  | some t => (filterSubjects (·.userName) subjects t).map fun r =>
      { userName := r.userName
        visit := "Visit " ++ toString r.recallNo
        src := r }

/-- Output row of get_detailed_food_items: one row per input row with the
Meal and Visit labels attached. -/
structure FoodItemRow where
  userName : String
  visit : String
  meal : Option String
  src : ItemRow
  deriving DecidableEq

/-- Result of get_detailed_food_items (streamlit_app.py lines 152-176):
empty when the Items table is absent; operates on a copy, no store
effect. -/
def get_detailed_food_items (s : Store) (subjects : Option (List String)) :
    List FoodItemRow :=
  match s.items with
  | none => []
  | some tbl => (filterSubjects (·.userName) subjects tbl.rows).map fun r =>
      { userName := r.userName
        visit := "Visit " ++ toString r.recallNo
        meal := mealNames r.occName
        src := r }

/-- Row-by-row scoring of a Totals row list; a KeyError on any row aborts
the whole call, modelled by none. -/
def heiRowsAux : List TotalsRow → Option (List ScoreRow)
  | [] => some []
  | r :: rs =>
    match hei2015Row r, heiRowsAux rs with
    | some srow, some l => some (srow :: l)
    | _, _ => none

/-- calculate_hei_2015 (streamlit_app.py lines 178-294): an empty result
when the Totals table is absent (line 198), else the per-row scores of the
filtered table; none models an uncaught KeyError. -/
def calculate_hei_2015 (s : Store) (subjects : Option (List String)) :
    Option (List ScoreRow) :=
  match s.totals with
  | none => some []
  | some t => heiRowsAux (filterSubjects (·.userName) subjects t)

/-- The key_nutrients mapping of get_nutrient_summary (streamlit_app.py
lines 32-57), in source order: display name paired with raw column code. -/
def keyNutrients : List (String × String) :=
  [("Energy (kcal)", "KCAL"),
   ("Protein (g)", "PROT"),
   ("Total Fat (g)", "TFAT"),
   ("Carbohydrate (g)", "CARB"),
   ("Fiber (g)", "FIBE"),
   ("Sugar (g)", "SUGR"),
   ("Calcium (mg)", "CALC"),
   ("Iron (mg)", "IRON"),
   ("Vitamin C (mg)", "VC"),
   ("Vitamin D (mcg)", "VITD"),
   ("Vitamin A (mcg)", "VARA"),
   ("Vitamin B12 (mcg)", "VB12"),
   ("Folate (mcg)", "FOLA"),
   ("Sodium (mg)", "SODI"),
   ("Potassium (mg)", "POTA"),
   ("Omega-3 Fatty Acids (g)", "OMEGA3"),
   ("Choline (mg)", "CHOLINE"),
   ("Iodine (mcg)", "IODINE"),
   ("Zinc (mg)", "ZINC"),
   ("DHA (g)", "DHA"),
   ("EPA (g)", "EPA"),
   ("ALA (g)", "ALA"),
   ("Selenium (mcg)", "SELENIUM"),
   ("Magnesium (mg)", "MAGNESIUM")]

/-- DataFrame.rename(columns=m) on a column name list: each column is
replaced by its image under the mapping when it is a key, and kept
unchanged otherwise. -/
def renameCols (m : List (String × String)) (cols : List String) :
    List String :=
  cols.map fun c => ((m.lookup c).getD c)

/-- The columns selected by get_nutrient_summary before the Visit column
is added (streamlit_app.py line 59): the three key columns plus the
values, that is the raw codes, of the key_nutrients dictionary. -/
def nutrientSelectedCols : List String :=
  ["UserName", "RecallNo", "IntakeStartDateTime"] ++ keyNutrients.map (·.2)

/-- The column names of the frame returned by get_nutrient_summary: the
selected columns plus Visit, passed through rename with the key_nutrients
mapping (streamlit_app.py lines 59-63). -/
def nutrientSummaryCols : List String :=
  renameCols keyNutrients (nutrientSelectedCols ++ ["Visit"])

/-- A loaded CSV table as seen by load_data when building the subject
index: either it has a UserName column with the listed values, or it has
none. -/
structure RawTable where
  userCol : Option (List String)

/-- The subject index accumulation of load_data (streamlit_app.py lines
15-23): fold over the loaded tables, adding the distinct UserName values
of every table that has the column. -/
def loadSubjects (tables : List RawTable) : Finset String :=
  tables.foldl
    (fun acc t =>
      match t.userCol with
      | none => acc
      | some l => acc ∪ l.toFinset)
    ∅

/-- A concrete Totals row with every optional column present, used to
evaluate the scoring engine at one input. -/
def rowAll : TotalsRow :=
  { userName := "u1", recallNo := 1, kcal := 2000, f_total := 1.6,
    v_total := 1.5, v_drkgr := 0.3, g_whole := 1.2, g_refined := 2.5,
    d_total := 2.0, pf_total := 5.0, pf_seafd_hi := 0.5, pf_nutsds := 0.5,
    sodi := 2300, add_sugars := 10,
    f_juice := some 0, v_legumes := some 0.2, mufa := some 20,
    pufa := some 15, sfa := some 20, sfat := some 20, m161 := some 1,
    m181 := some 10, p183 := some 1, s040 := some 1, s060 := some 1,
    s080 := some 1, s100 := some 1, s120 := some 1, s140 := some 1,
    s160 := some 5, s180 := some 3 }

/-- The same row without the F_JUICE column. -/
def rowNoJuice : TotalsRow := { rowAll with f_juice := none }

/-- The same row without the V_LEGUMES column. -/
def rowNoLegumes : TotalsRow := { rowAll with v_legumes := none }

/-- The same row without SFA, SFAT and all eight S040..S180 columns. -/
def rowNoSatCols : TotalsRow :=
  { rowAll with
      sfa := none, sfat := none, s040 := none, s060 := none,
      s080 := none, s100 := none, s120 := none, s140 := none,
      s160 := none, s180 := none }

/-- The same row without the SFA column (the SFAT alias remains). -/
def rowSfatOnly : TotalsRow := { rowAll with sfa := none }

/-- The same row without SFA and SFAT (the S040..S180 columns remain). -/
def rowSColsOnly : TotalsRow := { rowAll with sfa := none, sfat := none }

/-- Two Breakfast Items rows for subject u1, visit 1, with KCAL 150 and
105 (the literal scenario of the spec). -/
def breakfastRows : List ItemRow :=
  [{ userName := "u1", recallNo := 1, occName := "1", foodNum := 1,
     foodDesc := "Oatmeal", foodAmt := 100, kcal := 150, prot := 5,
     tfat := 3, carb := 27 },
   { userName := "u1", recallNo := 1, occName := "1", foodNum := 2,
     foodDesc := "Milk", foodAmt := 200, kcal := 105, prot := 8,
     tfat := 5, carb := 12 }]

/-- One Items row whose occasion code 9 is outside the meal dictionary. -/
def unmappedRows : List ItemRow :=
  [{ userName := "u1", recallNo := 1, occName := "9", foodNum := 1,
     foodDesc := "Mystery", foodAmt := 50, kcal := 80, prot := 2,
     tfat := 1, carb := 10 }]

/-- A store holding a freshly loaded Items table (no Meal column). -/
def storeWithItems : Store :=
  { totals := none,
    items := some { rows := breakfastRows, mealCol := none },
    ins := none }

/-- The store of an empty data directory: no table loaded. -/
def emptyStore : Store := { totals := none, items := none, ins := none }

/-- The Breakfast output row of the meal summary over breakfastRows. -/
def mealRowB : MealRow := mkMealRow breakfastRows ("u1", 1, "Breakfast")

/-- Each of the 13 component scores lies in its fixed point range: 0 to 5
for the four 5-point components and the protein components, 0 to 10 for
the rest. -/
def scoreWithinBounds (s : ScoreRow) : Prop :=
  (0 ≤ s.totalFruits ∧ s.totalFruits ≤ 5) ∧
  (0 ≤ s.wholeFruits ∧ s.wholeFruits ≤ 5) ∧
  (0 ≤ s.totalVegetables ∧ s.totalVegetables ≤ 5) ∧
  (0 ≤ s.greensAndBeans ∧ s.greensAndBeans ≤ 5) ∧
  (0 ≤ s.wholeGrains ∧ s.wholeGrains ≤ 10) ∧
  (0 ≤ s.dairy ∧ s.dairy ≤ 10) ∧
  (0 ≤ s.totalProteinFoods ∧ s.totalProteinFoods ≤ 5) ∧
  (0 ≤ s.seafoodPlantProteins ∧ s.seafoodPlantProteins ≤ 5) ∧
  (0 ≤ s.fattyAcids ∧ s.fattyAcids ≤ 10) ∧
  (0 ≤ s.refinedGrains ∧ s.refinedGrains ≤ 10) ∧
  (0 ≤ s.sodium ∧ s.sodium ≤ 10) ∧
  (0 ≤ s.addedSugars ∧ s.addedSugars ≤ 10) ∧
  (0 ≤ s.saturatedFats ∧ s.saturatedFats ≤ 10)

/-- The Total HEI Score column equals the sum of the 13 component
columns. -/
def totalIsSum (s : ScoreRow) : Prop :=
  s.totalScore =
    s.totalFruits + s.wholeFruits + s.totalVegetables + s.greensAndBeans +
    s.wholeGrains + s.dairy + s.totalProteinFoods + s.seafoodPlantProteins +
    s.fattyAcids + s.refinedGrains + s.sodium + s.addedSugars +
    s.saturatedFats

theorem clip_bounds {lo hi : ℚ} (x : ℚ) (h : lo ≤ hi) :
    lo ≤ clip x lo hi ∧ clip x lo hi ≤ hi :=
  ⟨le_max_left lo _, max_le h (min_le_right x hi)⟩

theorem fattyAcidsScore_bounds (r : TotalsRow) :
    0 ≤ fattyAcidsScore r ∧ fattyAcidsScore r ≤ 10 := by
  unfold fattyAcidsScore
  split
  · exact clip_bounds _ (by norm_num)
  · split
    · exact clip_bounds _ (by norm_num)
    · norm_num

theorem heiScoresOf_bounds (r : TotalsRow) (fj vl pct : ℚ) :
    scoreWithinBounds (heiScoresOf r fj vl pct) :=
  ⟨clip_bounds _ (by norm_num), clip_bounds _ (by norm_num),
   clip_bounds _ (by norm_num), clip_bounds _ (by norm_num),
   clip_bounds _ (by norm_num), clip_bounds _ (by norm_num),
   clip_bounds _ (by norm_num), clip_bounds _ (by norm_num),
   fattyAcidsScore_bounds r, clip_bounds _ (by norm_num),
   clip_bounds _ (by norm_num), clip_bounds _ (by norm_num),
   clip_bounds _ (by norm_num)⟩

theorem heiScoresOf_totalIsSum (r : TotalsRow) (fj vl pct : ℚ) :
    totalIsSum (heiScoresOf r fj vl pct) := rfl

theorem scoreWithinBounds_total {s : ScoreRow} (hb : scoreWithinBounds s)
    (ht : totalIsSum s) : 0 ≤ s.totalScore ∧ s.totalScore ≤ 100 := by
  obtain ⟨⟨a1, b1⟩, ⟨a2, b2⟩, ⟨a3, b3⟩, ⟨a4, b4⟩, ⟨a5, b5⟩, ⟨a6, b6⟩,
    ⟨a7, b7⟩, ⟨a8, b8⟩, ⟨a9, b9⟩, ⟨a10, b10⟩, ⟨a11, b11⟩, ⟨a12, b12⟩,
    ⟨a13, b13⟩⟩ := hb
  rw [totalIsSum] at ht
  constructor <;> rw [ht] <;> linarith

/-- C1: for every Totals row with positive KCAL and every HEI source
column present, scoring succeeds, each of the 13 component scores lies in
its 0 to max range, and the Total HEI Score equals the sum of the 13
components and lies between 0 and 100. -/
theorem C1_hei_scores_bounded (r : TotalsRow) (hk : 0 < r.kcal)
    (hp : allOptionalPresent r = true) :
    ∃ s, hei2015Row r = some s ∧ scoreWithinBounds s ∧ totalIsSum s ∧
      0 ≤ s.totalScore ∧ s.totalScore ≤ 100 := by
  have hj : r.f_juice.isSome := by
    simp only [allOptionalPresent, Bool.and_eq_true] at hp
    exact hp.1.1.1.1.1.1.1.1.1
  have hl : r.v_legumes.isSome := by
    simp only [allOptionalPresent, Bool.and_eq_true] at hp
    exact hp.1.1.1.1.1.1.1.1.2
  have hs : r.sfa.isSome := by
    simp only [allOptionalPresent, Bool.and_eq_true] at hp
    exact hp.1.1.1.1.1.2
  obtain ⟨fj, hfj⟩ := Option.isSome_iff_exists.mp hj
  obtain ⟨vl, hvl⟩ := Option.isSome_iff_exists.mp hl
  obtain ⟨sv, hsv⟩ := Option.isSome_iff_exists.mp hs
  have hsat : satFatPerc r = some (sv * 9 * 100 / r.kcal) := by
    simp [satFatPerc, hsv]
  refine ⟨heiScoresOf r fj vl (sv * 9 * 100 / r.kcal), ?_,
    heiScoresOf_bounds r fj vl _,
    heiScoresOf_totalIsSum r fj vl _,
    scoreWithinBounds_total (heiScoresOf_bounds r fj vl _)
      (heiScoresOf_totalIsSum r fj vl _)⟩
  simp only [hei2015Row, hfj, hvl, hsat]

/-- Witness for C1 at the concrete row rowAll. -/
theorem C1_hei_scores_bounded_witness :
    0 < rowAll.kcal ∧ allOptionalPresent rowAll = true ∧
    ∃ s, hei2015Row rowAll = some s ∧ scoreWithinBounds s ∧ totalIsSum s ∧
      0 ≤ s.totalScore ∧ s.totalScore ≤ 100 :=
  ⟨by norm_num [rowAll], by decide,
   C1_hei_scores_bounded rowAll (by norm_num [rowAll]) (by decide)⟩

/-- C4 counterexample: on a Totals row whose F_JUICE column is absent,
calculate_hei_2015 does not return a result: the unchecked bracket access
raises KeyError, modelled as none, contradicting the claimed silent
fallback to F_TOTAL. -/
theorem C4_counterexample :
    rowNoJuice.f_juice = none ∧ hei2015Row rowNoJuice = none := ⟨rfl, rfl⟩

/-- C4 (amended): when the F_JUICE column or the V_LEGUMES column is
absent, calculate_hei_2015 raises a missing-column error on the row: no
fallback to F_TOTAL or to V_DRKGR exists for these two columns, so their
absence is raised to the caller rather than resolved silently. -/
theorem C4_missing_column_raises (r : TotalsRow)
    (h : r.f_juice = none ∨ r.v_legumes = none) :
    hei2015Row r = none := by
  rcases h with h | h
  · cases hv : r.v_legumes <;> simp [hei2015Row, h, hv]
  · cases hj : r.f_juice <;> simp [hei2015Row, h, hj]

/-- Witness for C4 at the concrete row rowNoLegumes. -/
theorem C4_missing_column_raises_witness :
    rowNoLegumes.v_legumes = none ∧ hei2015Row rowNoLegumes = none :=
  ⟨rfl, C4_missing_column_raises rowNoLegumes (Or.inr rfl)⟩

/-- C5 (code bug evidence): the first three legs of the Saturated Fats
chain behave as claimed (SFA, else the SFAT alias, else the sum of
S040..S180, each shown at a concrete row), but on a row with KCAL 2000
missing SFA, SFAT and all S0xx columns the source never produces the
claimed default score 5: sat_fat_perc is then the plain int 12 and the
clip call on the resulting Python float raises AttributeError, so the
whole call dies and no score row exists. -/
theorem C5_saturated_fat_default_crashes :
    satFatPerc rowAll = some (20 * 9 * 100 / rowAll.kcal) ∧
    rowSfatOnly.sfa = none ∧
    satFatPerc rowSfatOnly = some (20 * 9 * 100 / rowSfatOnly.kcal) ∧
    rowSColsOnly.sfa = none ∧ rowSColsOnly.sfat = none ∧
    satFatPerc rowSColsOnly =
      some ((1 + 1 + 1 + 1 + 1 + 1 + 5 + 3) * 9 * 100 / rowSColsOnly.kcal) ∧
    rowNoSatCols.kcal = 2000 ∧ rowNoSatCols.sfa = none ∧
    rowNoSatCols.sfat = none ∧ sColsPresent rowNoSatCols = false ∧
    satFatPerc rowNoSatCols = none ∧
    hei2015Row rowNoSatCols = none :=
  ⟨rfl, rfl, rfl, rfl, rfl, rfl, rfl, rfl, rfl, by decide, rfl, rfl⟩

/-- C6: for every store lacking the required source table, each projector
and the scoring engine returns an empty result with zero rows and raises
nothing: the Totals consumers when Totals is absent, the Items consumers
when Items is absent, the supplement summary when INS is absent (for the
scoring engine, some [] is the empty result and none would be the raised
error). -/
theorem C6_missing_table_empty (s : Store) (subjects : Option (List String)) :
    (s.totals = none → get_nutrient_summary s subjects = [] ∧
      get_food_groups_summary s subjects = [] ∧
      calculate_hei_2015 s subjects = some []) ∧
    (s.items = none → get_meal_summary s subjects = [] ∧
      get_detailed_food_items s subjects = []) ∧
    (s.ins = none → get_supplement_summary s subjects = []) := by
  refine ⟨fun h => ?_, fun h => ?_, fun h => ?_⟩ <;>
    simp [get_nutrient_summary, get_food_groups_summary, calculate_hei_2015,
      get_meal_summary, get_detailed_food_items, get_supplement_summary, h]

/-- Witness for C6 at the store of an empty data directory. -/
theorem C6_missing_table_empty_witness :
    emptyStore.totals = none ∧
    get_nutrient_summary emptyStore none = [] ∧
    get_food_groups_summary emptyStore none = [] ∧
    calculate_hei_2015 emptyStore none = some [] ∧
    get_meal_summary emptyStore none = [] ∧
    get_detailed_food_items emptyStore none = [] ∧
    get_supplement_summary emptyStore none = [] := by
  have h := C6_missing_table_empty emptyStore none
  exact ⟨rfl, (h.1 rfl).1, (h.1 rfl).2.1, (h.1 rfl).2.2, (h.2.1 rfl).1,
    (h.2.1 rfl).2, h.2.2 rfl⟩

/-- C7: the subject filter leaves the table unchanged when the allowlist
is absent or empty; for a non-empty allowlist it keeps, in original order
(a sublist of the input), exactly the rows whose UserName belongs to the
allowlist; allowlist ids absent from the table simply match zero rows. -/
theorem C7_subject_filter (α : Type) (user : α → String) (rows : List α) :
    filterSubjects user none rows = rows ∧
    filterSubjects user (some []) rows = rows ∧
    (∀ l : List String, (filterSubjects user (some l) rows).Sublist rows) ∧
    (∀ l : List String, ∀ a, l ≠ [] →
      (a ∈ filterSubjects user (some l) rows ↔ a ∈ rows ∧ user a ∈ l)) := by
  refine ⟨rfl, rfl, ?_, ?_⟩
  · intro l
    cases l with
    | nil => exact List.Sublist.refl rows
    | cons x xs => exact List.filter_sublist rows
  · intro l a hl
    cases l with
    | nil => exact absurd rfl hl
    | cons x xs => simp [filterSubjects, List.mem_filter]

/-- Witness for C7: the filter with allowlist u2 applied to a table whose
only rows belong to u1 yields zero rows and no error. -/
theorem C7_subject_filter_witness :
    ("u1" ∈ filterSubjects (fun s => s) (some ["u2"]) ["u1"] ↔
      "u1" ∈ ["u1"] ∧ "u1" ∈ ["u2"]) ∧
    filterSubjects (fun s => s) (some ["u2"]) ["u1"] = [] :=
  ⟨(C7_subject_filter String (fun s => s) ["u1"]).2.2.2 ["u2"] "u1"
      (by decide), by decide⟩

/-- C2 (code bug evidence): a store with a freshly loaded Items table is
changed by calling get_meal_summary with no subject allowlist: the stored
Items frame gains the Meal column written by the in-place assignment, so
the call is not a pure read. -/
theorem C2_meal_summary_mutates_store :
    storeWithItems.items.map ItemsTable.mealCol = some none ∧
    (get_meal_summary_store storeWithItems none).items.map
        ItemsTable.mealCol =
      some (some [some "Breakfast", some "Breakfast"]) ∧
    get_meal_summary_store storeWithItems none ≠ storeWithItems := by
  refine ⟨rfl, by decide, by decide⟩

/-- C3 counterexample: the columns of the frame returned by
get_nutrient_summary still carry the raw code KCAL and do not carry the
display name, contradicting the claimed relabeling. -/
theorem C3_counterexample :
    "KCAL" ∈ nutrientSummaryCols ∧ "Energy (kcal)" ∉ nutrientSummaryCols := by
  decide

/-- C3 (amended): the rename call maps display names to raw codes while
the selected columns are the raw codes, so no key matches and the rename
is the identity: the output of get_nutrient_summary keeps the raw column
codes exactly (as the repository test asserts by indexing with KCAL); the
static mapping itself is one-to-one in both directions. -/
theorem C3_rename_is_identity :
    nutrientSummaryCols = nutrientSelectedCols ++ ["Visit"] ∧
    (keyNutrients.map Prod.fst).Nodup ∧
    (keyNutrients.map Prod.snd).Nodup := by
  refine ⟨by decide, by decide, by decide⟩

/-- C9: the subject index built by load_data contains exactly the
UserName values occurring in some loaded table that has a UserName
column: the union across all tables, not the subjects of any one table. -/
theorem C9_subject_index_is_union (tables : List RawTable) (x : String) :
    x ∈ loadSubjects tables ↔
      ∃ t ∈ tables, ∃ l, t.userCol = some l ∧ x ∈ l := by
  have key : ∀ (ts : List RawTable) (acc : Finset String),
      x ∈ ts.foldl
          (fun acc t =>
            match t.userCol with
            | none => acc
            | some l => acc ∪ l.toFinset) acc ↔
        x ∈ acc ∨ ∃ t ∈ ts, ∃ l, t.userCol = some l ∧ x ∈ l := by
    intro ts
    induction ts with
    | nil => intro acc; simp
    | cons t ts ih =>
      intro acc
      cases h : t.userCol with
      | none =>
        rw [List.foldl_cons, h, ih]
        constructor
        · rintro (hx | ⟨t2, ht2, l, hcol, hx⟩)
          · exact Or.inl hx
          · exact Or.inr ⟨t2, List.mem_cons_of_mem _ ht2, l, hcol, hx⟩
        · rintro (hx | ⟨t2, ht2, l, hcol, hx⟩)
          · exact Or.inl hx
          · rcases List.mem_cons.mp ht2 with rfl | ht2
            · rw [h] at hcol; cases hcol
            · exact Or.inr ⟨t2, ht2, l, hcol, hx⟩
      | some l =>
        rw [List.foldl_cons, h, ih]
        constructor
        · rintro (hx | ⟨t2, ht2, l2, hcol, hx⟩)
          · rcases Finset.mem_union.mp hx with hx | hx
            · exact Or.inl hx
            · exact Or.inr ⟨t, List.mem_cons_self t ts, l, h,
                List.mem_toFinset.mp hx⟩
          · exact Or.inr ⟨t2, List.mem_cons_of_mem _ ht2, l2, hcol, hx⟩
        · rintro (hx | ⟨t2, ht2, l2, hcol, hx⟩)
          · exact Or.inl (Finset.mem_union.mpr (Or.inl hx))
          · rcases List.mem_cons.mp ht2 with rfl | ht2
            · rw [h] at hcol
              injection hcol with e
              subst e
              exact Or.inl (Finset.mem_union.mpr
                (Or.inr (List.mem_toFinset.mpr hx)))
            · exact Or.inr ⟨t2, ht2, l2, hcol, hx⟩
  simpa [loadSubjects] using key tables ∅

theorem mealKey_eq_some_isSome {r : ItemRow} {k : String × Nat × String}
    (h : mealKey r = some k) : (mealNames r.occName).isSome := by
  unfold mealKey at h
  cases hm : mealNames r.occName with
  | none => rw [hm] at h; cases h
  | some m => rfl

theorem filterMap_mealKey_filter (rows : List ItemRow) :
    ((rows.filter fun r => (mealNames r.occName).isSome).filterMap mealKey) =
      rows.filterMap mealKey := by
  induction rows with
  | nil => rfl
  | cons r rs ih =>
    cases h : mealNames r.occName with
    | none => simp [List.filter_cons, List.filterMap_cons, mealKey, h, ih]
    | some m => simp [List.filter_cons, List.filterMap_cons, mealKey, h, ih]

theorem group_filter_eq (rows : List ItemRow) (k : String × Nat × String) :
    ((rows.filter fun r => (mealNames r.occName).isSome).filter
        fun r => decide (mealKey r = some k)) =
      rows.filter fun r => decide (mealKey r = some k) := by
  induction rows with
  | nil => rfl
  | cons r rs ih =>
    by_cases hk : mealKey r = some k
    · have hp : (mealNames r.occName).isSome = true := mealKey_eq_some_isSome hk
      simp [List.filter_cons, hk, hp, ih]
    · cases hp : (mealNames r.occName).isSome <;>
        simp [List.filter_cons, hk, hp, ih]

/-- C10: occasion codes outside 1..8 are unmapped (no meal label), and
rows without a meal label are invisible to get_meal_summary: dropping them
from the input leaves the output unchanged, so such a row contributes to
no group at all and no error is raised. -/
theorem C10_unmapped_meal_dropped :
    (∀ s : String, s ≠ "1" → s ≠ "2" → s ≠ "3" → s ≠ "4" → s ≠ "5" →
      s ≠ "6" → s ≠ "7" → s ≠ "8" → mealNames s = none) ∧
    (∀ rows : List ItemRow,
      mealSummaryRows rows =
        mealSummaryRows (rows.filter fun r =>
          (mealNames r.occName).isSome)) := by
  constructor
  · intro s h1 h2 h3 h4 h5 h6 h7 h8
    simp [mealNames, h1, h2, h3, h4, h5, h6, h7, h8]
  · intro rows
    unfold mealSummaryRows
    rw [filterMap_mealKey_filter]
    have hmk : mkMealRow (rows.filter fun r =>
        (mealNames r.occName).isSome) = mkMealRow rows := by
      funext k
      simp only [mkMealRow, group_filter_eq]
    rw [hmk]

/-- Witness for C10 at occasion code 9 and the concrete unmapped row. -/
theorem C10_unmapped_meal_dropped_witness :
    mealNames "9" = none ∧
    mealSummaryRows unmappedRows =
      mealSummaryRows (unmappedRows.filter fun r =>
        (mealNames r.occName).isSome) :=
  ⟨C10_unmapped_meal_dropped.1 "9" (by decide) (by decide) (by decide)
      (by decide) (by decide) (by decide) (by decide) (by decide),
   C10_unmapped_meal_dropped.2 unmappedRows⟩

theorem length_filter_or {α : Type} (p q : α → Bool) (l : List α)
    (h : ∀ x ∈ l, ¬(p x = true ∧ q x = true)) :
    (l.filter fun x => p x || q x).length =
      (l.filter p).length + (l.filter q).length := by
  induction l with
  | nil => rfl
  | cons a l ih =>
    have ha := h a (List.mem_cons_self a l)
    have hr : ∀ x ∈ l, ¬(p x = true ∧ q x = true) := fun x hx =>
      h x (List.mem_cons_of_mem a hx)
    cases hp : p a
    · cases hq : q a
      · simp [List.filter_cons, hp, hq, ih hr]
      · simp [List.filter_cons, hp, hq, ih hr]
        omega
    · cases hq : q a
      · simp [List.filter_cons, hp, hq, ih hr]
        omega
      · exact absurd ⟨hp, hq⟩ ha

theorem sum_group_sizes (rows : List ItemRow)
    (K : List (String × Nat × String)) (hnd : K.Nodup) :
    (K.map fun k => (rows.filter fun r =>
        decide (mealKey r = some k)).length).sum =
      rows.countP fun r => decide (∃ k ∈ K, mealKey r = some k) := by
  induction K with
  | nil => simp
  | cons k K ih =>
    rw [List.nodup_cons] at hnd
    have hsplit : (fun r : ItemRow =>
        decide (∃ x ∈ k :: K, mealKey r = some x)) =
        fun r => decide (mealKey r = some k) ||
          decide (∃ x ∈ K, mealKey r = some x) := by
      funext r
      rw [decide_eq_decide.mpr (List.exists_mem_cons_iff _ k K)]
      exact Bool.decide_or _ _
    rw [List.map_cons, List.sum_cons, ih hnd.2, hsplit,
      List.countP_eq_length_filter, List.countP_eq_length_filter,
      length_filter_or]
    intro r _ hpq
    obtain ⟨h1, h2⟩ := hpq
    have e1 := of_decide_eq_true h1
    obtain ⟨x, hxK, hx⟩ := of_decide_eq_true h2
    rw [e1] at hx
    injection hx with e
    exact hnd.1 (e ▸ hxK)

theorem exists_key_iff (rows : List ItemRow) (u : String) (v : Nat)
    (r : ItemRow) (hr : r ∈ rows) :
    (∃ k ∈ ((rows.filterMap mealKey).dedup.filter fun k =>
        decide (k.1 = u ∧ k.2.1 = v)), mealKey r = some k) ↔
      (r.userName = u ∧ r.recallNo = v ∧
        (mealNames r.occName).isSome = true) := by
  constructor
  · rintro ⟨k, hkmem, hkey⟩
    rw [List.mem_filter] at hkmem
    have hp := of_decide_eq_true hkmem.2
    unfold mealKey at hkey
    cases hm : mealNames r.occName with
    | none => rw [hm] at hkey; cases hkey
    | some m =>
      rw [hm] at hkey
      simp only [Option.map_some'] at hkey
      injection hkey with e
      subst e
      exact ⟨hp.1, hp.2, rfl⟩
  · rintro ⟨hu, hv, hs⟩
    obtain ⟨m, hm⟩ := Option.isSome_iff_exists.mp hs
    refine ⟨(u, v, m), List.mem_filter.mpr ⟨List.mem_dedup.mpr
      (List.mem_filterMap.mpr ⟨r, hr, ?_⟩), ?_⟩, ?_⟩
    · simp [mealKey, hm, hu, hv]
    · exact decide_eq_true ⟨rfl, rfl⟩
    · simp [mealKey, hm, hu, hv]

/-- C8 (amended): for every Items table and (subject, visit) pair, the
total of Number of Items over the meal rows of that pair equals the number
of Item rows of that pair whose occasion code maps to a meal label (rows
with unmapped codes are dropped by the grouping, see the C10 analysis);
each meal row carries the group size and the four nutrient sums of its
group rounded to one decimal; and two Breakfast rows with KCAL 150 and
105 produce Number of Items 2 and Calories 255. -/
theorem C8_meal_aggregation :
    (∀ rows : List ItemRow, ∀ u : String, ∀ v : Nat,
      (((mealSummaryRows rows).filter fun mr =>
          decide (mr.userName = u ∧ mr.recallNo = v)).map
        (fun mr => mr.numItems)).sum =
        rows.countP fun r => decide (r.userName = u ∧ r.recallNo = v ∧
          (mealNames r.occName).isSome = true)) ∧
    (∀ rows : List ItemRow, ∀ mr ∈ mealSummaryRows rows,
      mr.numItems = (rows.filter fun r =>
          decide (mealKey r =
            some (mr.userName, mr.recallNo, mr.meal))).length ∧
      mr.calories = round1 (((rows.filter fun r =>
          decide (mealKey r =
            some (mr.userName, mr.recallNo, mr.meal))).map
          (fun r => r.kcal)).sum) ∧
      mr.protein = round1 (((rows.filter fun r =>
          decide (mealKey r =
            some (mr.userName, mr.recallNo, mr.meal))).map
          (fun r => r.prot)).sum) ∧
      mr.fat = round1 (((rows.filter fun r =>
          decide (mealKey r =
            some (mr.userName, mr.recallNo, mr.meal))).map
          (fun r => r.tfat)).sum) ∧
      mr.carbs = round1 (((rows.filter fun r =>
          decide (mealKey r =
            some (mr.userName, mr.recallNo, mr.meal))).map
          (fun r => r.carb)).sum)) ∧
    ((mealSummaryRows breakfastRows).map fun mr =>
        (mr.meal, mr.numItems, mr.calories)) = [("Breakfast", 2, 255)] := by
  refine ⟨?_, ?_, ?_⟩
  · intro rows u v
    unfold mealSummaryRows
    rw [List.filter_map, List.map_map]
    rw [show ((fun mr : MealRow => mr.numItems) ∘ mkMealRow rows) =
          fun k => (rows.filter fun r =>
            decide (mealKey r = some k)).length from rfl]
    rw [sum_group_sizes rows _ ((List.nodup_dedup _).filter _)]
    refine List.countP_congr fun r hr => ?_
    rw [decide_eq_true_eq, decide_eq_true_eq]
    exact exists_key_iff rows u v r hr
  · intro rows mr hmr
    unfold mealSummaryRows at hmr
    obtain ⟨k, hk, rfl⟩ := List.mem_map.mp hmr
    obtain ⟨k1, k2, k3⟩ := k
    exact ⟨rfl, rfl, rfl, rfl, rfl⟩
  · have hkeys : (breakfastRows.filterMap mealKey).dedup =
        [("u1", 1, "Breakfast")] := by decide
    have hsum : ((breakfastRows.filter fun r =>
        decide (mealKey r = some ("u1", 1, "Breakfast"))).map
          (fun r => r.kcal)).sum = 255 := by
      rw [show (breakfastRows.filter fun r =>
          decide (mealKey r = some ("u1", 1, "Breakfast"))) =
        breakfastRows from rfl]
      show (150 : ℚ) + (105 + 0) = 255
      norm_num
    have hround : round ((255 : ℚ) * 10) = 2550 := by
      rw [round_eq]
      norm_num
    have hcal : (mkMealRow breakfastRows ("u1", 1, "Breakfast")).calories
        = 255 := by
      show round1 (((breakfastRows.filter fun r =>
        decide (mealKey r = some ("u1", 1, "Breakfast"))).map
          (fun r => r.kcal)).sum) = 255
      rw [round1, hsum, hround]
      norm_num
    unfold mealSummaryRows
    rw [hkeys]
    show [((mkMealRow breakfastRows ("u1", 1, "Breakfast")).meal,
          (mkMealRow breakfastRows ("u1", 1, "Breakfast")).numItems,
          (mkMealRow breakfastRows ("u1", 1, "Breakfast")).calories)] =
      [("Breakfast", 2, 255)]
    rw [hcal]
    rfl

/-- Witness for C8: the Breakfast group of the two-row concrete table is
an output row, and its Number of Items is its group size. -/
theorem C8_meal_aggregation_witness :
    mealRowB ∈ mealSummaryRows breakfastRows ∧
    mealRowB.numItems = (breakfastRows.filter fun r =>
      decide (mealKey r = some (mealRowB.userName, mealRowB.recallNo,
        mealRowB.meal))).length := by
  have hkeys : (breakfastRows.filterMap mealKey).dedup =
      [("u1", 1, "Breakfast")] := by decide
  have hms : mealSummaryRows breakfastRows = [mealRowB] := by
    unfold mealSummaryRows
    rw [hkeys]
    rfl
  have hmem : mealRowB ∈ mealSummaryRows breakfastRows := by
    rw [hms]
    exact List.mem_singleton.mpr rfl
  exact ⟨hmem,
    (C8_meal_aggregation.2.1 breakfastRows mealRowB hmem).1⟩

/-- C8 counterexample: an Items table whose only row carries the unmapped
occasion code 9: the meal summary has no rows for (u1, visit 1), so the
claimed identity between the summed Number of Items (here 0) and the
number of Item rows of that pair (here 1) fails. -/
theorem C8_counterexample :
    (((mealSummaryRows unmappedRows).filter fun mr =>
        decide (mr.userName = "u1" ∧ mr.recallNo = 1)).map
      (fun mr => mr.numItems)).sum = 0 ∧
    (unmappedRows.filter fun r =>
        decide (r.userName = "u1" ∧ r.recallNo = 1)).length = 1 ∧
    (((mealSummaryRows unmappedRows).filter fun mr =>
        decide (mr.userName = "u1" ∧ mr.recallNo = 1)).map
      (fun mr => mr.numItems)).sum ≠
      (unmappedRows.filter fun r =>
        decide (r.userName = "u1" ∧ r.recallNo = 1)).length := by
  refine ⟨by decide, by decide, by decide⟩

end ASA24
